import Mathlib

/-!
Verification development for the `ai-cr` code-review tool.

Shallow embedding of the TypeScript sources:
* `src/core/analyzer.ts`   — `CodeAnalyzer` (file filtering, size validation,
  batching, summary generation, quality score, glob matching);
* `src/services/providers/mock.ts` — `MockProvider`;
* `src/config/index.ts`    — `ConfigManager.validateConfig`;
* `src/integrations/git-hooks.ts` — `GitHooksIntegration.uninstallAllHooks`;
* `src/web/server.ts`      — the periodic status-cleanup sweep.

Modelling conventions: JavaScript numbers appearing as counts are `Nat`,
as signed quantities (sizes, limits, epoch milliseconds) are `Int`, and the
quality-score arithmetic is carried out in `ℚ` with `Math.round` rendered as
`fun q => Int.floor (q + 1/2)` (exact on every value the program produces).
Wall-clock fields (`processingTime`, `timestamp`, metadata) are omitted:
no claim mentions them.  `JSON`-level field names that are not legal Lean
identifiers are camel-cased (`best-practice` becomes `bestPractice`).
-/

namespace AiCr

/-- Severity levels of `types/index.ts` (`Severity`). -/
inductive Severity where
  | critical | high | medium | low | info
deriving DecidableEq, Repr

/-- Issue categories of `types/index.ts` (`IssueType`); `best-practice`
is rendered `bestPractice`. -/
inductive IssueType where
  | bug | security | performance | style | maintainability | accessibility | bestPractice
deriving DecidableEq, Repr

/-- Per-severity counters, `Record<Severity, number>`. -/
structure SeverityCounts where
  critical : Nat
  high : Nat
  medium : Nat
  low : Nat
  info : Nat
deriving DecidableEq, Repr

/-- Per-category counters, `Record<IssueType, number>`. -/
structure CategoryCounts where
  bug : Nat
  security : Nat
  performance : Nat
  style : Nat
  maintainability : Nat
  accessibility : Nat
  bestPractice : Nat
deriving DecidableEq, Repr

/-- A code issue (`CodeIssue` in `types/index.ts`). -/
structure Issue where
  id : String
  type : IssueType
  severity : Severity
  line : Nat
  column : Nat
  message : String
  description : String
  suggestion : String
  rule : String
deriving DecidableEq, Repr

/-- Suggestion type tags used by the mock provider. -/
inductive SuggestionType where
  | refactor | optimization | enhancement
deriving DecidableEq, Repr

/-- Suggestion priority tags used by the mock provider. -/
inductive Priority where
  | high | medium | low
deriving DecidableEq, Repr

/-- A code suggestion (`CodeSuggestion` in `types/index.ts`). -/
structure Suggestion where
  id : String
  type : SuggestionType
  priority : Priority
  line : Nat
  title : String
  description : String
  code : String
deriving DecidableEq, Repr

/-- Structure `AnalysisSummary` of `types/index.ts`, without the wall-clock
`processingTime` field. -/
structure AnalysisSummary where
  totalFiles : Nat
  totalIssues : Nat
  totalSuggestions : Nat
  severityCounts : SeverityCounts
  categoryCounts : CategoryCounts
  qualityScore : Int
deriving DecidableEq, Repr

/-- Structure `CodeAnalysisResult` of `types/index.ts`. -/
structure CodeAnalysisResult where
  filePath : String
  issues : List Issue
  suggestions : List Suggestion
  summary : AnalysisSummary
deriving DecidableEq, Repr

/-- Git file status of `types/index.ts` (`FileChange.status`). -/
inductive FileStatus where
  | added | modified | deleted | renamed
deriving DecidableEq, Repr

/-- Structure `FileChange` of `types/index.ts`. -/
structure FileChange where
  filePath : String
  status : FileStatus
  oldPath : Option String := none
  diff : Option String := none
  content : Option String := none
  size : Int
deriving DecidableEq, Repr

/-- AI provider tag (`AIProvider` in `types/index.ts`). -/
inductive AIProvider where
  | deepseek | openai | moonshot | mock
deriving DecidableEq, Repr

/-- The fields of `AIConfig` that `validateConfig` and the analyzer read. -/
structure AIConfig where
  provider : AIProvider
  apiKey : String
  baseUrl : String
deriving DecidableEq, Repr

/-- The fields of `AnalysisConfig` that the analyzer and `validateConfig`
read.  Numeric limits are `Int` as JS numbers may be non-positive. -/
structure AnalysisConfig where
  includePatterns : List String
  excludePatterns : List String
  maxFileSize : Int
  maxFilesPerAnalysis : Int
deriving DecidableEq, Repr

/-- The configuration record (`Config` in `types/index.ts`), restricted to
the fields the embedded operations read. -/
structure Config where
  ai : AIConfig
  analysis : AnalysisConfig
deriving DecidableEq, Repr

/-- Structure `AnalysisResponse` of `types/index.ts`, without the `metadata` block
(timestamp, version, provider label, wall-clock time). -/
structure AnalysisResponse where
  results : List CodeAnalysisResult
  summary : AnalysisSummary
deriving DecidableEq, Repr

/-- JavaScript `Math.round`: round half toward positive infinity. -/
def jsRound (q : ℚ) : Int := Int.floor (q + 1/2)

/-- Embedding of `CodeAnalyzer.calculateQualityScore` (analyzer.ts lines 200-216):
start at 100, subtract `min(issuesPerFile * 10, 50)`, add
`min(suggestionsPerFile * 2, 10)`, then `max(0, min(100, round(score)))`;
0 files short-circuits to 100. -/
def calculateQualityScore (issues suggestions files : Nat) : Int :=
  if files = 0 then 100
  else
    let issuesPerFile : ℚ := (issues : ℚ) / (files : ℚ)
    let suggestionsPerFile : ℚ := (suggestions : ℚ) / (files : ℚ)
    let score : ℚ := 100 - min (issuesPerFile * 10) 50 + min (suggestionsPerFile * 2) 10
    max 0 (min 100 (jsRound score))

/-- Step `severityCounts[issue.severity]++` of `generateSummary`. -/
def bumpSeverity (c : SeverityCounts) : Severity → SeverityCounts
  | .critical => { c with critical := c.critical + 1 }
  | .high => { c with high := c.high + 1 }
  | .medium => { c with medium := c.medium + 1 }
  | .low => { c with low := c.low + 1 }
  | .info => { c with info := c.info + 1 }

/-- Step `categoryCounts[issue.type]++` of `generateSummary`. -/
def bumpCategory (c : CategoryCounts) : IssueType → CategoryCounts
  | .bug => { c with bug := c.bug + 1 }
  | .security => { c with security := c.security + 1 }
  | .performance => { c with performance := c.performance + 1 }
  | .style => { c with style := c.style + 1 }
  | .maintainability => { c with maintainability := c.maintainability + 1 }
  | .accessibility => { c with accessibility := c.accessibility + 1 }
  | .bestPractice => { c with bestPractice := c.bestPractice + 1 }

/-- All-zero severity counters. -/
def zeroSeverityCounts : SeverityCounts := ⟨0, 0, 0, 0, 0⟩

/-- All-zero category counters. -/
def zeroCategoryCounts : CategoryCounts := ⟨0, 0, 0, 0, 0, 0, 0⟩

/-- Embedding of `CodeAnalyzer.generateSummary` (analyzer.ts lines 157-195): totals,
severity and category counters folded over the per-file results, and the
quality score computed from the totals. -/
def generateSummary (results : List CodeAnalysisResult) : AnalysisSummary :=
  let totalFiles := results.length
  let totalIssues := results.foldl (fun acc r => acc + r.issues.length) 0
  let totalSuggestions := results.foldl (fun acc r => acc + r.suggestions.length) 0
  let severityCounts := results.foldl
    (fun acc r => r.issues.foldl (fun a i => bumpSeverity a i.severity) acc)
    zeroSeverityCounts
  let categoryCounts := results.foldl
    (fun acc r => r.issues.foldl (fun a i => bumpCategory a i.type) acc)
    zeroCategoryCounts
  { totalFiles := totalFiles
    totalIssues := totalIssues
    totalSuggestions := totalSuggestions
    severityCounts := severityCounts
    categoryCounts := categoryCounts
    qualityScore := calculateQualityScore totalIssues totalSuggestions totalFiles }

/-- Embedding of `CodeAnalyzer.createEmptyResponse` (analyzer.ts lines 236-255):
empty results, zero totals, zeroed counters, quality score 100. -/
def createEmptyResponse : AnalysisResponse :=
  { results := []
    summary :=
      { totalFiles := 0
        totalIssues := 0
        totalSuggestions := 0
        severityCounts := zeroSeverityCounts
        categoryCounts := zeroCategoryCounts
        qualityScore := 100 } }

/-!
Glob matching.  `CodeAnalyzer.matchesPattern` builds a JavaScript regular
expression by three sequential global string replacements
(`** ↦ .*`, `* ↦ [^/]*`, `? ↦ .`) and then runs the unanchored
`RegExp.test`.  We embed the replacement pipeline on character lists, parse
the resulting regex text (whose atoms, for patterns over ordinary path
characters, are literal characters, `.`, `.*` and `[^/]*`) into a small
syntax, and give it the standard matches-anywhere semantics.
-/

/-- One global, left-to-right, non-overlapping replacement of `pat` by
`repl`, as `String.prototype.replace` with a `g` regex of a literal pattern
performs it (replacements are not rescanned).  Fuelled so that it reduces
by kernel computation; with `fuel ≥ s.length` and nonempty `pat` (all
callers pass a nonempty pattern) the fuel is never exhausted. -/
def replaceAllAux (pat repl : List Char) : Nat → List Char → List Char
  | _, [] => []
  | 0, s => s
  | fuel + 1, a :: rest =>
    if pat ≠ [] ∧ pat.isPrefixOf (a :: rest) then
      repl ++ replaceAllAux pat repl fuel ((a :: rest).drop pat.length)
    else
      a :: replaceAllAux pat repl fuel rest

/-- Global replacement of `pat` by `repl` in `s`. -/
def replaceAll (pat repl s : List Char) : List Char :=
  replaceAllAux pat repl s.length s

/-- The regex text produced by `matchesPattern`, as a character list:
the three replacements of analyzer.ts lines 223-228 in order. -/
def globToRegex (pattern : List Char) : List Char :=
  replaceAll ['?'] ['.']
    (replaceAll ['*'] ['[', '^', '/', ']', '*']
      (replaceAll ['*', '*'] ['.', '*'] pattern))

/-- Atoms of the regex fragment that glob translation produces:
a literal character, `.` (any one character), `.*` (any sequence) and
`[^/]*` (any sequence of non-slash characters). -/
inductive RTok where
  | lit (c : Char)
  | dot
  | starAny
  | starNonSlash
deriving DecidableEq, Repr

/-- Parse the regex text into atoms.  `[^/]*` and `.*` are recognised as
starred atoms; every other character is an atom on its own (`.` the
wildcard, anything else a literal — exact JavaScript semantics for
patterns built from ordinary path characters, `*` and `?`). -/
def parseRegex : List Char → List RTok
  | [] => []
  | '[' :: '^' :: '/' :: ']' :: '*' :: rest => .starNonSlash :: parseRegex rest
  | '.' :: '*' :: rest => .starAny :: parseRegex rest
  | '.' :: rest => .dot :: parseRegex rest
  | c :: rest => .lit c :: parseRegex rest

/-- Does the regex match some prefix of the string (match at this
position)?  Disjunction over all backtracking choices, i.e. existence of a
match, which is what `RegExp.test` reports.  Fuelled so that it reduces by
kernel computation: every recursive call shrinks `rx.length + s.length`,
so `fuel ≥ rx.length + s.length` is never exhausted. -/
def matchHereAux : Nat → List RTok → List Char → Bool
  | _, [], _ => true
  | 0, _ :: _, _ => false
  | fuel + 1, .lit c :: rx, s =>
    match s with
    | [] => false
    | a :: s2 => a = c && matchHereAux fuel rx s2
  | fuel + 1, .dot :: rx, s =>
    match s with
    | [] => false
    | _ :: s2 => matchHereAux fuel rx s2
  | fuel + 1, .starAny :: rx, s =>
    matchHereAux fuel rx s ||
      (match s with
       | [] => false
       | _ :: s2 => matchHereAux fuel (.starAny :: rx) s2)
  | fuel + 1, .starNonSlash :: rx, s =>
    matchHereAux fuel rx s ||
      (match s with
       | [] => false
       | a :: s2 => decide (a ≠ '/') && matchHereAux fuel (.starNonSlash :: rx) s2)

/-- Match the regex at the start of `s`. -/
def matchHere (rx : List RTok) (s : List Char) : Bool :=
  matchHereAux (rx.length + s.length) rx s

/-- Unanchored search: `RegExp.test` succeeds when some suffix of the
string begins with a match. -/
def regexTest (rx : List RTok) (s : List Char) : Bool :=
  s.tails.any fun t => matchHere rx t

/-- Embedding of `CodeAnalyzer.matchesPattern` (analyzer.ts lines 221-231) on character
lists. -/
def matchesPatternL (filePath pattern : List Char) : Bool :=
  regexTest (parseRegex (globToRegex pattern)) filePath

/-- Embedding of `CodeAnalyzer.matchesPattern` on strings. -/
def matchesPattern (filePath pattern : String) : Bool :=
  matchesPatternL filePath.toList pattern.toList

/-- Embedding of `CodeAnalyzer.filterFiles` (analyzer.ts lines 117-131): keep a file
when some include pattern matches and no exclude pattern matches. -/
def filterFiles (cfg : Config) (files : List FileChange) : List FileChange :=
  files.filter fun file =>
    (cfg.analysis.includePatterns.any fun pattern =>
      matchesPattern file.filePath pattern) &&
    !(cfg.analysis.excludePatterns.any fun pattern =>
      matchesPattern file.filePath pattern)

/-- Embedding of `CodeAnalyzer.validateFileSizes` (analyzer.ts lines 136-138): keep
files whose size is at most `analysis.maxFileSize`. -/
def validateFileSizes (cfg : Config) (files : List FileChange) : List FileChange :=
  files.filter fun file => file.size ≤ cfg.analysis.maxFileSize

/-- Loop of `CodeAnalyzer.createBatches`, fuelled rendering of the
`for (i = 0; i < files.length; i += maxFiles)` loop.  With
`maxFiles ≥ 1` (the only case in which the JavaScript loop terminates;
`validateConfig` requires it) the fuel `files.length` is never exhausted
and the result is the slices of length `maxFiles`. -/
def createBatchesAux (fuel : Nat) (maxFiles : Nat) : List FileChange → List (List FileChange)
  | [] => []
  | a :: rest =>
    match fuel with
    | 0 => []
    | fuel2 + 1 =>
      (a :: rest).take maxFiles :: createBatchesAux fuel2 maxFiles ((a :: rest).drop maxFiles)

/-- Embedding of `CodeAnalyzer.createBatches` (analyzer.ts lines 143-152). -/
def createBatches (maxFiles : Nat) (files : List FileChange) : List (List FileChange) :=
  createBatchesAux files.length maxFiles files

/-- Embedding of `CodeAnalyzer.analyzeFiles` (analyzer.ts lines 51-96).  The provider
call of `analyzeBatch` is abstracted as a function to `Option`; `none`
renders a thrown error (provider unavailable or API failure), which the
batch loop catches and skips.  The thrown size-limit error surfaces as
`Except.error`. -/
def analyzeFiles (cfg : Config)
    (provider : List FileChange → Option (List CodeAnalysisResult))
    (files : List FileChange) : Except String AnalysisResponse :=
  let filteredFiles := filterFiles cfg files
  if filteredFiles = [] then
    .ok createEmptyResponse
  else
    let validFiles := validateFileSizes cfg filteredFiles
    if validFiles = [] then
      .error "No valid files to analyze (all files exceed size limit)"
    else
      let batches := createBatches cfg.analysis.maxFilesPerAnalysis.toNat validFiles
      let allResults := batches.foldl
        (fun acc batch =>
          match provider batch with
          | some batchResults => acc ++ batchResults
          | none => acc)
        []
      .ok { results := allResults, summary := generateSummary allResults }

/-!
`MockProvider` (`src/services/providers/mock.ts`).  `analyzeCode` maps each
input file to a canned result; the JavaScript catalogue is appended when the
path contains the substring `.js`, the TypeScript catalogue when it contains
`.ts` (`String.prototype.includes`).  The per-file summary block is the
hard-coded object of `analyzeCode` (only its two totals are computed). -/

/-- JavaScript `String.prototype.includes`: substring containment,
rendered as "some suffix of the haystack starts with the needle". -/
def strIncludes (haystack needle : String) : Bool :=
  haystack.toList.tails.any fun t => needle.toList.isPrefixOf t

/-- First mock JavaScript issue (`js-001`). -/
def mockJsIssue1 : Issue :=
  { id := "js-001", type := .style, severity := .medium, line := 3, column := 1
    message := "使用var声明变量，建议使用let或const"
    description := "现代JavaScript推荐使用let和const而不是var，以避免变量提升和块级作用域问题。"
    suggestion := "将var改为let或const", rule := "no-var" }

/-- Second mock JavaScript issue (`js-002`). -/
def mockJsIssue2 : Issue :=
  { id := "js-002", type := .bug, severity := .high, line := 15, column := 1
    message := "缺少错误处理"
    description := "JSON.parse可能抛出异常，但没有try-catch处理。"
    suggestion := "添加try-catch块来处理JSON解析错误", rule := "error-handling" }

/-- Third mock JavaScript issue (`js-003`). -/
def mockJsIssue3 : Issue :=
  { id := "js-003", type := .security, severity := .critical, line := 25, column := 1
    message := "使用eval()存在安全风险"
    description := "eval()函数会执行任意代码，可能导致代码注入攻击。"
    suggestion := "避免使用eval()，考虑使用其他安全的替代方案", rule := "no-eval" }

/-- First mock TypeScript issue (`ts-001`). -/
def mockTsIssue1 : Issue :=
  { id := "ts-001", type := .style, severity := .medium, line := 12, column := 1
    message := "缺少返回类型注解"
    description := "TypeScript函数应该明确指定返回类型以提高代码可读性。"
    suggestion := "为函数添加明确的返回类型注解", rule := "explicit-return-type" }

/-- Second mock TypeScript issue (`ts-002`). -/
def mockTsIssue2 : Issue :=
  { id := "ts-002", type := .bug, severity := .high, line := 18, column := 1
    message := "缺少错误处理"
    description := "数组操作可能失败，但没有错误处理机制。"
    suggestion := "添加错误处理和边界检查", rule := "error-handling" }

/-- Third mock TypeScript issue (`ts-003`). -/
def mockTsIssue3 : Issue :=
  { id := "ts-003", type := .style, severity := .low, line := 30, column := 1
    message := "使用any类型"
    description := "使用any类型会失去TypeScript的类型检查优势。"
    suggestion := "使用更具体的类型定义", rule := "no-any" }

/-- First mock JavaScript suggestion (`js-sug-001`). -/
def mockJsSug1 : Suggestion :=
  { id := "js-sug-001", type := .refactor, priority := .high, line := 1
    title := "添加JSDoc注释"
    description := "为函数添加JSDoc注释可以提高代码可读性和维护性。"
    code := "/**\n * 计算两个数的和\n * @param \x7bnumber\x7d a - 第一个数\n * @param \x7bnumber\x7d b - 第二个数\n * @returns \x7bnumber\x7d 两数之和\n */" }

/-- Second mock JavaScript suggestion (`js-sug-002`). -/
def mockJsSug2 : Suggestion :=
  { id := "js-sug-002", type := .optimization, priority := .medium, line := 8
    title := "使用现代JavaScript语法"
    description := "可以使用箭头函数和数组方法简化代码。"
    code := "const result = data.filter(item => item > 0).map(item => item * 2);" }

/-- First mock TypeScript suggestion (`ts-sug-001`). -/
def mockTsSug1 : Suggestion :=
  { id := "ts-sug-001", type := .enhancement, priority := .high, line := 5
    title := "添加访问修饰符"
    description := "明确指定方法的访问级别。"
    code := "public addUser(user: User): void \x7b" }

/-- Second mock TypeScript suggestion (`ts-sug-002`). -/
def mockTsSug2 : Suggestion :=
  { id := "ts-sug-002", type := .refactor, priority := .medium, line := 12
    title := "添加返回类型注解"
    description := "为函数添加明确的返回类型。"
    code := "findUser(id: number): User | undefined \x7b" }

/-- Embedding of `MockProvider.generateMockIssues` (mock.ts lines 33-113): three
JavaScript issues when the path contains `.js`, then three TypeScript
issues when it contains `.ts`. -/
def generateMockIssues (file : FileChange) : List Issue :=
  (if strIncludes file.filePath ".js" then
    [mockJsIssue1, mockJsIssue2, mockJsIssue3]
  else []) ++
  (if strIncludes file.filePath ".ts" then
    [mockTsIssue1, mockTsIssue2, mockTsIssue3]
  else [])

/-- Embedding of `MockProvider.generateMockSuggestions` (mock.ts lines 115-163). -/
def generateMockSuggestions (file : FileChange) : List Suggestion :=
  (if strIncludes file.filePath ".js" then
    [mockJsSug1, mockJsSug2]
  else []) ++
  (if strIncludes file.filePath ".ts" then
    [mockTsSug1, mockTsSug2]
  else [])

/-- The per-file result the arrow function inside
`MockProvider.analyzeCode` (mock.ts lines 9-22) builds: generated issues
and suggestions, a hard-coded summary block with only the totals computed. -/
def mockFileResult (file : FileChange) : CodeAnalysisResult :=
  { filePath := file.filePath
    issues := generateMockIssues file
    suggestions := generateMockSuggestions file
    summary :=
      { totalFiles := 1
        totalIssues := (generateMockIssues file).length
        totalSuggestions := (generateMockSuggestions file).length
        severityCounts := { critical := 0, high := 1, medium := 2, low := 1, info := 0 }
        categoryCounts :=
          { bug := 1, security := 1, performance := 1, style := 1
            maintainability := 0, accessibility := 0, bestPractice := 0 }
        qualityScore := 75 } }

/-- Embedding of `MockProvider.analyzeCode` (mock.ts lines 5-23), with the simulated
1-second delay dropped. -/
def mockAnalyzeCode (files : List FileChange) : List CodeAnalysisResult :=
  files.map mockFileResult

/-!  `ConfigManager.validateConfig` (`src/config/index.ts` lines 136-162). -/

/-- Return shape of `validateConfig`. -/
structure ValidationResult where
  valid : Bool
  errors : List String
deriving DecidableEq, Repr

/-- Embedding of `ConfigManager.validateConfig`: providers other than `mock` require a
non-empty apiKey and baseUrl; both analysis limits must be positive; the
report is valid exactly when no error message was accumulated.  An empty
JavaScript string is the only falsy value a string field can hold here. -/
def validateConfig (c : Config) : ValidationResult :=
  let errors :=
    (if c.ai.provider ≠ .mock then
      (if c.ai.apiKey = "" then ["AI API key is required"] else []) ++
      (if c.ai.baseUrl = "" then ["AI base URL is required"] else [])
    else []) ++
    (if c.analysis.maxFileSize ≤ 0 then
      ["Max file size must be greater than 0"] else []) ++
    (if c.analysis.maxFilesPerAnalysis ≤ 0 then
      ["Max files per analysis must be greater than 0"] else [])
  { valid := errors.length == 0, errors := errors }

/-!
`GitHooksIntegration.uninstallAllHooks` (`src/integrations/git-hooks.ts`).
The filesystem slice the routine touches is the three hook files of
`.git/hooks`; each is `none` (absent) or `some content`. -/

/-- The marker by which the tool recognises its own hooks: every installed
hook script contains this text, and `uninstallAllHooks` deletes only files
containing it (`content.includes('AI Code Review')`). -/
def hookSignature : String := "AI Code Review"

/-- The three hook files `uninstallAllHooks` visits: `pre-commit`,
`commit-msg`, `post-commit` under `.git/hooks`. -/
structure HookFiles where
  preCommit : Option String
  commitMsg : Option String
  postCommit : Option String
deriving DecidableEq, Repr

/-- Body of the per-hook loop of `uninstallAllHooks` (git-hooks.ts lines
158-168): an existing file is unlinked exactly when its content contains
the signature; an absent file stays absent. -/
def uninstallHookFile (file : Option String) : Option String :=
  match file with
  | none => none
  | some content =>
    if strIncludes content hookSignature then none
    else some content

/-- Embedding of `GitHooksIntegration.uninstallAllHooks` (git-hooks.ts lines 153-176)
as its effect on the three hook files. -/
def uninstallAllHooks (h : HookFiles) : HookFiles :=
  { preCommit := uninstallHookFile h.preCommit
    commitMsg := uninstallHookFile h.commitMsg
    postCommit := uninstallHookFile h.postCommit }

/-!
The periodic status sweep of `startWebServer` (`src/web/server.ts` lines
249-258).  The `analysisStatuses` map is modelled as an association list;
times are epoch milliseconds. -/

/-- The fields of `AnalysisStatus` the sweep reads; `startTime` is
`Date.getTime()` in milliseconds. -/
structure AnalysisStatusRec where
  id : String
  status : String
  progress : Int
  startTime : Int
deriving DecidableEq, Repr

/-- The `oneHour` constant of the sweep, `60 * 60 * 1000` milliseconds. -/
def oneHourMs : Int := 60 * 60 * 1000

/-- One execution of the cleanup `setInterval` callback at time `now`:
delete every entry whose start time lies more than one hour in the past,
keep the rest. -/
def cleanupStatuses (now : Int) (statuses : List (String × AnalysisStatusRec)) :
    List (String × AnalysisStatusRec) :=
  statuses.filter fun entry => !(now - entry.2.startTime > oneHourMs)

/-- Quality-score formula as the specification words it (spec-side
definition for the refinement claim): starting from 100, subtract
`min((I/F) * 10, 50)`, add `min((S/F) * 2, 10)`, round to nearest (half
up), clamp to `[0, 100]`. -/
def specQualityScore (F I S : Nat) : Int :=
  max 0 (min 100 (jsRound
    (100 - min ((I : ℚ) / (F : ℚ) * 10) 50 + min ((S : ℚ) / (F : ℚ) * 2) 10)))

/-!  Concrete sample inputs used to instantiate the theorems below. -/

/-- A changed file named `foo.js`. -/
def sampleFooJs : FileChange := { filePath := "foo.js", status := .modified, size := 10 }

/-- One per-file result list: the mock analysis of `foo.js`
(3 issues, 2 suggestions, 1 file). -/
def sampleResults : List CodeAnalysisResult := [mockFileResult sampleFooJs]

/-- A configuration with mock provider, a `*.js` include pattern, no
excludes, a 1000-byte size limit and batches of one file. -/
def sampleConfig : Config :=
  { ai := { provider := .mock, apiKey := "", baseUrl := "" }
    analysis :=
      { includePatterns := ["*.js"], excludePatterns := []
        maxFileSize := 1000, maxFilesPerAnalysis := 1 } }

/-- A file no include pattern of `sampleConfig` matches. -/
def sampleMdFile : FileChange := { filePath := "notes.md", status := .added, size := 5 }

/-- A `.js` file larger than `sampleConfig`'s size limit. -/
def sampleBigJs : FileChange := { filePath := "big.js", status := .modified, size := 5000 }

/-- A small `.js` file on which `sampleProvider` fails. -/
def sampleBadJs : FileChange := { filePath := "bad.js", status := .modified, size := 1 }

/-- A small `.js` file on which `sampleProvider` succeeds. -/
def sampleGoodJs : FileChange := { filePath := "good.js", status := .modified, size := 1 }

/-- A provider that throws on any batch containing `bad.js` and otherwise
answers as the mock provider does. -/
def sampleProvider : List FileChange → Option (List CodeAnalysisResult) :=
  fun batch =>
    if batch.all fun f => decide (f.filePath ≠ "bad.js") then
      some (mockAnalyzeCode batch)
    else none

/-- The response of a `sampleConfig` run over `[good.js, bad.js]` with
`sampleProvider`: only the successful batch is aggregated. -/
def sampleResponse : AnalysisResponse :=
  { results := mockAnalyzeCode [sampleGoodJs]
    summary := generateSummary (mockAnalyzeCode [sampleGoodJs]) }

/-- A `deepseek` configuration with an empty API key. -/
def sampleDeepSeekConfig : Config :=
  { ai := { provider := .deepseek, apiKey := "", baseUrl := "https://api.deepseek.com" }
    analysis :=
      { includePatterns := [], excludePatterns := []
        maxFileSize := 1000, maxFilesPerAnalysis := 10 } }

/-- A hook script carrying the tool's signature marker. -/
def sampleInstalledHook : String :=
  "#!/bin/sh\n# AI Code Review - Pre-commit Hook\nnpx ai-cr analyze --staged"

/-- A pre-existing hook script without the marker. -/
def sampleForeignHook : String := "#!/bin/sh\nnpm test"

/-- Hook files: an installed pre-commit hook, a foreign commit-msg hook,
no post-commit hook. -/
def sampleHookFiles : HookFiles :=
  { preCommit := some sampleInstalledHook
    commitMsg := some sampleForeignHook
    postCommit := none }

/-- A sweep instant (epoch milliseconds). -/
def sampleNow : Int := 10000000000

/-- A status record two hours old at `sampleNow`. -/
def sampleOldStatus : AnalysisStatusRec :=
  { id := "old", status := "completed", progress := 100
    startTime := sampleNow - 2 * oneHourMs }

/-- A status record thirty minutes old at `sampleNow`. -/
def sampleFreshStatus : AnalysisStatusRec :=
  { id := "fresh", status := "processing", progress := 50
    startTime := sampleNow - 30 * 60 * 1000 }

/-- A status map holding the two sample records. -/
def sampleStatuses : List (String × AnalysisStatusRec) :=
  [("old", sampleOldStatus), ("fresh", sampleFreshStatus)]

/-!  Helper lemmas. -/

/-- Folding `acc + f r` over a list adds the sum of the projections. -/
theorem foldl_add_proj {α : Type} (f : α → Nat) :
    ∀ (l : List α) (init : Nat),
      l.foldl (fun acc r => acc + f r) init = init + (l.map f).sum
  | [], init => by simp
  | a :: l, init => by
    simp only [List.foldl_cons, List.map_cons, List.sum_cons,
      foldl_add_proj f l (init + f a)]
    omega

/-- Field `totalFiles` of a generated summary is the result count. -/
theorem generateSummary_totalFiles (rs : List CodeAnalysisResult) :
    (generateSummary rs).totalFiles = rs.length := rfl

/-- Field `totalIssues` of a generated summary is the sum of per-file issue
counts. -/
theorem generateSummary_totalIssues (rs : List CodeAnalysisResult) :
    (generateSummary rs).totalIssues = (rs.map fun r => r.issues.length).sum := by
  simpa [generateSummary] using foldl_add_proj (fun r => r.issues.length) rs 0

/-- Field `totalSuggestions` of a generated summary is the sum of per-file
suggestion counts. -/
theorem generateSummary_totalSuggestions (rs : List CodeAnalysisResult) :
    (generateSummary rs).totalSuggestions =
      (rs.map fun r => r.suggestions.length).sum := by
  simpa [generateSummary] using foldl_add_proj (fun r => r.suggestions.length) rs 0

/-- The quality score of a generated summary is `calculateQualityScore`
applied to the summary totals and the result count. -/
theorem generateSummary_qualityScore (rs : List CodeAnalysisResult) :
    (generateSummary rs).qualityScore =
      calculateQualityScore (generateSummary rs).totalIssues
        (generateSummary rs).totalSuggestions rs.length := rfl

/-- The batch loop of `analyzeFiles` collects exactly the concatenation of
the successful batches' results. -/
theorem foldl_batches (provider : List FileChange → Option (List CodeAnalysisResult)) :
    ∀ (batches : List (List FileChange)) (acc : List CodeAnalysisResult),
      batches.foldl
        (fun acc batch =>
          match provider batch with
          | some batchResults => acc ++ batchResults
          | none => acc) acc
      = acc ++ (batches.filterMap provider).flatten
  | [], acc => by simp
  | b :: batches, acc => by
    simp only [List.foldl_cons, List.filterMap_cons]
    cases h : provider b with
    | none => simp [h, foldl_batches provider batches acc]
    | some rs => simp [h, foldl_batches provider batches (acc ++ rs)]

/-- On a positive file count the analyzer's score agrees with the
spec-side formula. -/
theorem calculateQualityScore_eq_spec (I S F : Nat) (h : F ≠ 0) :
    calculateQualityScore I S F = specQualityScore F I S := by
  simp [calculateQualityScore, specQualityScore, h]

/-- Matches survive prepending to the searched string: unanchored search. -/
theorem matchesPatternL_append_left (pre s pat : List Char)
    (h : matchesPatternL s pat = true) :
    matchesPatternL (pre ++ s) pat = true := by
  unfold matchesPatternL regexTest at h ⊢
  rw [List.any_eq_true] at h ⊢
  obtain ⟨t, ht, hm⟩ := h
  exact ⟨t, (List.mem_tails t (pre ++ s)).mpr
    (((List.mem_tails t s).mp ht).trans (List.suffix_append pre s)), hm⟩

/-!  Claim theorems. -/

/-- C1: for every run whose aggregated per-file result count `F` is
positive, the run-level summary's quality score equals
`clamp(round(100 - min((I/F)*10, 50) + min((S/F)*2, 10)), 0, 100)` where
`I` and `S` are the summary's issue and suggestion totals; in particular
F=2, I=3, S=1 yields 86. -/
theorem quality_score_formula (results : List CodeAnalysisResult)
    (h : 0 < results.length) :
    (generateSummary results).qualityScore =
      specQualityScore results.length (generateSummary results).totalIssues
        (generateSummary results).totalSuggestions
    ∧ specQualityScore 2 3 1 = 86
    ∧ calculateQualityScore 3 1 2 = 86 := by
  refine ⟨?_, ?_, ?_⟩
  · rw [generateSummary_qualityScore]
    exact calculateQualityScore_eq_spec _ _ _ (by omega)
  · norm_num [specQualityScore, jsRound]
  · norm_num [calculateQualityScore, jsRound]

/-- C1 witness: the one-file mock run instantiates the formula. -/
theorem quality_score_formula_witness :
    0 < sampleResults.length ∧
      ((generateSummary sampleResults).qualityScore =
        specQualityScore sampleResults.length
          (generateSummary sampleResults).totalIssues
          (generateSummary sampleResults).totalSuggestions
      ∧ specQualityScore 2 3 1 = 86
      ∧ calculateQualityScore 3 1 2 = 86) :=
  ⟨by decide, quality_score_formula sampleResults (by decide)⟩

/-- C2: whenever filtering leaves no files (in particular on the empty
input list), `analyzeFiles` returns the empty response for any
configuration: no results, totals zero, every severity and category
counter present and zero, quality score 100. -/
theorem zero_file_run (cfg : Config)
    (provider : List FileChange → Option (List CodeAnalysisResult))
    (files : List FileChange) :
    (filterFiles cfg files = [] →
      analyzeFiles cfg provider files = .ok createEmptyResponse)
    ∧ analyzeFiles cfg provider [] = .ok createEmptyResponse
    ∧ createEmptyResponse.results = []
    ∧ createEmptyResponse.summary.totalFiles = 0
    ∧ createEmptyResponse.summary.totalIssues = 0
    ∧ createEmptyResponse.summary.totalSuggestions = 0
    ∧ createEmptyResponse.summary.qualityScore = 100
    ∧ createEmptyResponse.summary.severityCounts = ⟨0, 0, 0, 0, 0⟩
    ∧ createEmptyResponse.summary.categoryCounts = ⟨0, 0, 0, 0, 0, 0, 0⟩ := by
  refine ⟨fun h => ?_, ?_, rfl, rfl, rfl, rfl, rfl, rfl, rfl⟩
  · simp [analyzeFiles, h]
  · simp [analyzeFiles, filterFiles]

/-- C2 witness: a run over a single non-matching file. -/
theorem zero_file_run_witness :
    filterFiles sampleConfig [sampleMdFile] = [] ∧
      analyzeFiles sampleConfig sampleProvider [sampleMdFile] =
        .ok createEmptyResponse :=
  ⟨by decide, (zero_file_run sampleConfig sampleProvider [sampleMdFile]).1 (by decide)⟩

/-- C3: if filtering leaves at least one file but every remaining file
exceeds `analysis.maxFileSize`, `analyzeFiles` fails with
"No valid files to analyze (all files exceed size limit)"; a file whose
size is at most the limit is retained by the size check. -/
theorem size_limit_exhaustion (cfg : Config)
    (provider : List FileChange → Option (List CodeAnalysisResult))
    (files : List FileChange) :
    (filterFiles cfg files ≠ [] →
      (∀ f ∈ filterFiles cfg files, cfg.analysis.maxFileSize < f.size) →
      analyzeFiles cfg provider files =
        .error "No valid files to analyze (all files exceed size limit)")
    ∧ (∀ (candidates : List FileChange) (f : FileChange), f ∈ candidates →
        f.size ≤ cfg.analysis.maxFileSize → f ∈ validateFileSizes cfg candidates) := by
  constructor
  · intro hne hbig
    have hvalid : validateFileSizes cfg (filterFiles cfg files) = [] := by
      rw [validateFileSizes, List.filter_eq_nil_iff]
      intro f hf
      simpa using not_le.mpr (hbig f hf)
    simp [analyzeFiles, hne, hvalid]
  · intro candidates f hmem hsize
    rw [validateFileSizes]
    exact List.mem_filter.mpr ⟨hmem, by simpa using hsize⟩

/-- C3 witness: one matching file over the size limit. -/
theorem size_limit_exhaustion_witness :
    filterFiles sampleConfig [sampleBigJs] ≠ [] ∧
      analyzeFiles sampleConfig sampleProvider [sampleBigJs] =
        .error "No valid files to analyze (all files exceed size limit)" :=
  ⟨by decide, (size_limit_exhaustion sampleConfig sampleProvider [sampleBigJs]).1
    (by decide) (by decide)⟩

/-- C4: for any input file whose path is exactly `foo.js` — whatever its
content, status or size — the mock provider's per-file result carries
exactly the three JavaScript issues `js-001`, `js-002`, `js-003`, the two
suggestions `js-sug-001`, `js-sug-002`, and the hard-coded per-file
summary: severities 0/1/2/1/0, categories 1/1/1/1/0/0/0, quality score
75; `analyzeCode` is the per-file map of this result. -/
theorem mock_provider_determinism (f : FileChange) (h : f.filePath = "foo.js") :
    (mockFileResult f).issues.map Issue.id = ["js-001", "js-002", "js-003"]
    ∧ (mockFileResult f).suggestions.map Suggestion.id = ["js-sug-001", "js-sug-002"]
    ∧ (mockFileResult f).summary.severityCounts = ⟨0, 1, 2, 1, 0⟩
    ∧ (mockFileResult f).summary.categoryCounts = ⟨1, 1, 1, 1, 0, 0, 0⟩
    ∧ (mockFileResult f).summary.qualityScore = 75
    ∧ ∀ files : List FileChange, mockAnalyzeCode files = files.map mockFileResult := by
  have hjs : strIncludes f.filePath ".js" = true := by rw [h]; decide
  have hts : strIncludes f.filePath ".ts" = false := by rw [h]; decide
  refine ⟨?_, ?_, rfl, rfl, rfl, fun _ => rfl⟩
  · simp [mockFileResult, generateMockIssues, hjs, hts,
      mockJsIssue1, mockJsIssue2, mockJsIssue3]
  · simp [mockFileResult, generateMockSuggestions, hjs, hts,
      mockJsSug1, mockJsSug2]

/-- C4 witness: the sample `foo.js` file. -/
theorem mock_provider_determinism_witness :
    sampleFooJs.filePath = "foo.js" ∧
      ((mockFileResult sampleFooJs).issues.map Issue.id = ["js-001", "js-002", "js-003"]
      ∧ (mockFileResult sampleFooJs).suggestions.map Suggestion.id =
          ["js-sug-001", "js-sug-002"]
      ∧ (mockFileResult sampleFooJs).summary.severityCounts = ⟨0, 1, 2, 1, 0⟩
      ∧ (mockFileResult sampleFooJs).summary.categoryCounts = ⟨1, 1, 1, 1, 0, 0, 0⟩
      ∧ (mockFileResult sampleFooJs).summary.qualityScore = 75
      ∧ ∀ files : List FileChange, mockAnalyzeCode files = files.map mockFileResult) :=
  ⟨rfl, mock_provider_determinism sampleFooJs rfl⟩

/-- C5: `validateConfig` is valid exactly when (provider is mock, or both
apiKey and baseUrl are non-empty) and both analysis limits are positive;
a non-mock provider with empty apiKey contributes the error
"AI API key is required"; a mock provider with positive limits is valid
regardless of apiKey and baseUrl. -/
theorem config_validation_gating (c : Config) :
    ((validateConfig c).valid = true ↔
      ((c.ai.provider = .mock ∨ (c.ai.apiKey ≠ "" ∧ c.ai.baseUrl ≠ ""))
        ∧ 0 < c.analysis.maxFileSize ∧ 0 < c.analysis.maxFilesPerAnalysis))
    ∧ (c.ai.provider ≠ .mock → c.ai.apiKey = "" →
        "AI API key is required" ∈ (validateConfig c).errors)
    ∧ (c.ai.provider = .mock → 0 < c.analysis.maxFileSize →
        0 < c.analysis.maxFilesPerAnalysis → (validateConfig c).valid = true) := by
  simp only [validateConfig]
  split_ifs <;> simp_all

/-- C5 witness: a deepseek configuration with empty apiKey is reported
invalid with the key error, the mock sample configuration is valid. -/
theorem config_validation_gating_witness :
    "AI API key is required" ∈ (validateConfig sampleDeepSeekConfig).errors
    ∧ (validateConfig sampleConfig).valid = true :=
  ⟨(config_validation_gating sampleDeepSeekConfig).2.1 (by decide) rfl,
   (config_validation_gating sampleConfig).2.2 rfl (by decide) (by decide)⟩

/-- C6: for each of the three hook paths, `uninstallAllHooks` removes an
existing hook file if and only if its content contains the signature
marker, and leaves an existing file without the marker unchanged. -/
theorem hook_signature_isolation (h : HookFiles) (c : String) :
    (h.preCommit = some c →
      ((uninstallAllHooks h).preCommit = none ↔ strIncludes c hookSignature = true))
    ∧ (h.preCommit = some c → strIncludes c hookSignature = false →
        (uninstallAllHooks h).preCommit = some c)
    ∧ (h.commitMsg = some c →
      ((uninstallAllHooks h).commitMsg = none ↔ strIncludes c hookSignature = true))
    ∧ (h.commitMsg = some c → strIncludes c hookSignature = false →
        (uninstallAllHooks h).commitMsg = some c)
    ∧ (h.postCommit = some c →
      ((uninstallAllHooks h).postCommit = none ↔ strIncludes c hookSignature = true))
    ∧ (h.postCommit = some c → strIncludes c hookSignature = false →
        (uninstallAllHooks h).postCommit = some c) := by
  refine ⟨fun hp => ?_, fun hp hs => ?_, fun hp => ?_, fun hp hs => ?_,
    fun hp => ?_, fun hp hs => ?_⟩ <;>
    simp only [uninstallAllHooks, uninstallHookFile, hp] <;>
    cases hb : strIncludes c hookSignature <;> simp_all

/-- C6 witness: the installed pre-commit hook is removed, the foreign
commit-msg hook survives untouched. -/
theorem hook_signature_isolation_witness :
    (uninstallAllHooks sampleHookFiles).preCommit = none
    ∧ (uninstallAllHooks sampleHookFiles).commitMsg = some sampleForeignHook :=
  ⟨((hook_signature_isolation sampleHookFiles sampleInstalledHook).1 rfl).mpr (by decide),
   (hook_signature_isolation sampleHookFiles sampleForeignHook).2.2.2.1 rfl (by decide)⟩

/-- C7: after a cleanup sweep at time `now`, every record whose start
time lies more than one hour in the past is gone from the status map,
every record within the hour is still present, and the sweep adds
nothing. -/
theorem status_expiry (now : Int) (statuses : List (String × AnalysisStatusRec))
    (id : String) (s : AnalysisStatusRec) :
    ((id, s) ∈ statuses → oneHourMs < now - s.startTime →
      (id, s) ∉ cleanupStatuses now statuses)
    ∧ ((id, s) ∈ statuses → now - s.startTime ≤ oneHourMs →
      (id, s) ∈ cleanupStatuses now statuses)
    ∧ (∀ e ∈ cleanupStatuses now statuses, e ∈ statuses) := by
  refine ⟨fun hm hold => ?_, fun hm hfresh => ?_, fun e he => ?_⟩
  · intro hmem
    have hkept := (List.mem_filter.mp (by rwa [cleanupStatuses] at hmem)).2
    simp at hkept
    omega
  · rw [cleanupStatuses]
    refine List.mem_filter.mpr ⟨hm, ?_⟩
    simp
    omega
  · exact (List.mem_filter.mp (by rwa [cleanupStatuses] at he)).1

/-- C7 witness: the two-hour-old record is swept, the thirty-minute-old
one survives. -/
theorem status_expiry_witness :
    (("old", sampleOldStatus) ∈ sampleStatuses
      ∧ oneHourMs < sampleNow - sampleOldStatus.startTime
      ∧ ("old", sampleOldStatus) ∉ cleanupStatuses sampleNow sampleStatuses)
    ∧ (("fresh", sampleFreshStatus) ∈ sampleStatuses
      ∧ sampleNow - sampleFreshStatus.startTime ≤ oneHourMs
      ∧ ("fresh", sampleFreshStatus) ∈ cleanupStatuses sampleNow sampleStatuses) :=
  ⟨⟨by decide, by decide,
    (status_expiry sampleNow sampleStatuses "old" sampleOldStatus).1
      (by decide) (by decide)⟩,
   ⟨by decide, by decide,
    (status_expiry sampleNow sampleStatuses "fresh" sampleFreshStatus).2.1
      (by decide) (by decide)⟩⟩

/-- C8: glob matching is unanchored substring regex search with only the
`**`/`*`/`?` translations applied to the pattern: a match of the
translated regex anywhere inside the path counts, so `dist/**` matches
the path `src/dist/a.js`, and a literal `.` in a pattern acts as the
regex wildcard and matches any single character (`a.js` matches the path
`aXjs`), as does `?` (`a?c` matches `abc`). -/
theorem glob_matching_unanchored (pre s pat : List Char) :
    (matchesPatternL s pat = true → matchesPatternL (pre ++ s) pat = true)
    ∧ matchesPattern "src/dist/a.js" "dist/**" = true
    ∧ matchesPattern "aXjs" "a.js" = true
    ∧ matchesPattern "abc" "a?c" = true :=
  ⟨matchesPatternL_append_left pre s pat, by decide, by decide, by decide⟩

/-- C8 witness: the `dist/**` match of `dist/a.js` survives prefixing
with `src/`. -/
theorem glob_matching_unanchored_witness :
    matchesPatternL ("dist/a.js".toList) ("dist/**".toList) = true
    ∧ matchesPatternL ("src/".toList ++ "dist/a.js".toList) ("dist/**".toList) = true :=
  ⟨by decide,
   (glob_matching_unanchored ("src/".toList) ("dist/a.js".toList)
      ("dist/**".toList)).1 (by decide)⟩

/-- C9: the mock provider keys its catalogues on substring containment of
`.js` and `.ts` in the file path, not on the extension: the issue and
suggestion id lists are the JavaScript catalogue exactly when `.js`
occurs in the path, concatenated with the TypeScript catalogue exactly
when `.ts` occurs; `config.json`, `a.jsx` and `x.js.bak` all contain
`.js`; a path containing both substrings receives both catalogues, 6
issues and 4 suggestions. -/
theorem mock_substring_keying (f : FileChange) :
    ((generateMockIssues f).map Issue.id =
      (if strIncludes f.filePath ".js" then ["js-001", "js-002", "js-003"] else []) ++
      (if strIncludes f.filePath ".ts" then ["ts-001", "ts-002", "ts-003"] else []))
    ∧ ((generateMockSuggestions f).map Suggestion.id =
      (if strIncludes f.filePath ".js" then ["js-sug-001", "js-sug-002"] else []) ++
      (if strIncludes f.filePath ".ts" then ["ts-sug-001", "ts-sug-002"] else []))
    ∧ strIncludes "config.json" ".js" = true
    ∧ strIncludes "a.jsx" ".js" = true
    ∧ strIncludes "x.js.bak" ".js" = true
    ∧ (strIncludes f.filePath ".js" = true → strIncludes f.filePath ".ts" = true →
        (generateMockIssues f).length = 6 ∧ (generateMockSuggestions f).length = 4) := by
  refine ⟨?_, ?_, by decide, by decide, by decide, fun hjs hts => ?_⟩
  · cases h1 : strIncludes f.filePath ".js" <;> cases h2 : strIncludes f.filePath ".ts" <;>
      simp [generateMockIssues, h1, h2, mockJsIssue1, mockJsIssue2, mockJsIssue3,
        mockTsIssue1, mockTsIssue2, mockTsIssue3]
  · cases h1 : strIncludes f.filePath ".js" <;> cases h2 : strIncludes f.filePath ".ts" <;>
      simp [generateMockSuggestions, h1, h2, mockJsSug1, mockJsSug2, mockTsSug1, mockTsSug2]
  · constructor <;> simp [generateMockIssues, generateMockSuggestions, hjs, hts]

/-- C9 witness: a path containing both `.js` and `.ts` receives both
catalogues. -/
theorem mock_substring_keying_witness :
    strIncludes "app.js.ts" ".js" = true ∧ strIncludes "app.js.ts" ".ts" = true ∧
      ((generateMockIssues { filePath := "app.js.ts", status := .modified, size := 1 }).length = 6
      ∧ (generateMockSuggestions { filePath := "app.js.ts", status := .modified, size := 1 }).length = 4) :=
  ⟨by decide, by decide,
   (mock_substring_keying { filePath := "app.js.ts", status := .modified, size := 1 }).2.2.2.2.2
     (by decide) (by decide)⟩

/-- C10: in every successful run, `totalFiles` equals the number of
per-file results actually aggregated, the issue and suggestion totals are
their sums, the quality score divides by the aggregated count, and the
aggregated results are exactly the concatenation of the successful
batches' outputs — a failed batch's files are counted nowhere. -/
theorem failed_batches_excluded (cfg : Config)
    (provider : List FileChange → Option (List CodeAnalysisResult))
    (files : List FileChange) (resp : AnalysisResponse)
    (hok : analyzeFiles cfg provider files = .ok resp) :
    resp.summary.totalFiles = resp.results.length
    ∧ resp.summary.totalIssues = (resp.results.map fun r => r.issues.length).sum
    ∧ resp.summary.totalSuggestions = (resp.results.map fun r => r.suggestions.length).sum
    ∧ resp.summary.qualityScore =
        calculateQualityScore resp.summary.totalIssues resp.summary.totalSuggestions
          resp.results.length
    ∧ (filterFiles cfg files ≠ [] →
        validateFileSizes cfg (filterFiles cfg files) ≠ [] →
        resp.results =
          ((createBatches cfg.analysis.maxFilesPerAnalysis.toNat
            (validateFileSizes cfg (filterFiles cfg files))).filterMap provider).flatten) := by
  simp only [analyzeFiles] at hok
  by_cases h1 : filterFiles cfg files = []
  · rw [if_pos h1] at hok
    rw [Except.ok.injEq] at hok
    subst hok
    exact ⟨rfl, rfl, rfl, rfl, fun hne _ => absurd h1 hne⟩
  · rw [if_neg h1] at hok
    by_cases h2 : validateFileSizes cfg (filterFiles cfg files) = []
    · rw [if_pos h2] at hok
      exact absurd hok (by simp)
    · rw [if_neg h2] at hok
      rw [Except.ok.injEq] at hok
      subst hok
      refine ⟨generateSummary_totalFiles _, generateSummary_totalIssues _,
        generateSummary_totalSuggestions _, generateSummary_qualityScore _,
        fun _ _ => ?_⟩
      simpa using foldl_batches provider
        (createBatches cfg.analysis.maxFilesPerAnalysis.toNat
          (validateFileSizes cfg (filterFiles cfg files))) []

/-- C10 witness: with one-file batches over `[good.js, bad.js]` and a
provider failing on `bad.js`, the aggregated run counts one file, not
two. -/
theorem failed_batches_excluded_witness :
    analyzeFiles sampleConfig sampleProvider [sampleGoodJs, sampleBadJs] = .ok sampleResponse
    ∧ sampleResponse.summary.totalFiles = sampleResponse.results.length
    ∧ sampleResponse.summary.totalFiles = 1 := by
  have hok : analyzeFiles sampleConfig sampleProvider [sampleGoodJs, sampleBadJs] =
      .ok sampleResponse := by rfl
  exact ⟨hok, (failed_batches_excluded sampleConfig sampleProvider
    [sampleGoodJs, sampleBadJs] sampleResponse hok).1, rfl⟩

end AiCr
